import Mathlib

/-!
Verification of the bucko compose-resolution and build-orchestration
pipeline (`src/bucko/__init__.py`) against its specification.

The Python functions are shallowly embedded as Lean definitions:

* JSON values produced by `json.loads` become the inductive `JValue`
  (Python `None` is `JValue.null`; the model covers integer JSON numbers,
  the only numeric shape the pipeline handles).
* Python exceptions become the error type `PyError`; fallible code returns
  `Except PyError _`.
* `os.environ` reads and `open()` become explicit `Option String` /
  oracle-function parameters.
-/

/-- Python exception classes that the embedded code can raise. -/
inductive PyError where
  | keyError
  | typeError
  | valueError
  | attributeError
  | osError
deriving DecidableEq

/-- A parsed JSON value as returned by `json.loads`.  Python `None` is
`null`; JSON numbers are modelled by their integer value (the pipeline
never manipulates fractional numbers).  `obj` is the parsed `dict`
(association list in insertion order, keys unique for parsed input). -/
inductive JValue where
  | null
  | bool (b : Bool)
  | num (n : Int)
  | str (s : String)
  | arr (xs : List JValue)
  | obj (kvs : List (String × JValue))

/-- First-match association-list lookup, modelling `dict` lookup. -/
def lookupAssoc {α : Type} : List (String × α) → String → Option α
  | [], _ => none
  | (k2, v) :: rest, k => if k2 = k then some v else lookupAssoc rest k

/-- Python subscripting `v[key]` with a string key: a `dict` yields the
value or `KeyError`; any non-mapping raises `TypeError`. -/
def getItem (v : JValue) (key : String) : Except PyError JValue :=
  match v with
  | .obj kvs =>
    match lookupAssoc kvs key with
    | some x => .ok x
    | none => .error .keyError
  | _ => .error .typeError

/-- Embed a Python `str`-or-`None` value into `JValue`. -/
def optJ : Option String → JValue
  | some s => .str s
  | none => .null

/-- Split a character list on a separator character; like Python
`str.split(sep)`, the empty input yields one empty part. -/
def splitChars (sep : Char) : List Char → List (List Char)
  | [] => [[]]
  | c :: rest =>
    match splitChars sep rest with
    | [] => [[c]]
    | p :: ps => if c = sep then [] :: p :: ps else (c :: p) :: ps

/-- Model of Python `s.split(sep)` with no split limit. -/
def pySplit (sep : Char) (s : String) : List String :=
  (splitChars sep s.toList).map String.mk

/-- Join strings with a separator between them, like Python `sep.join`. -/
def joinSep (sep : String) : List String → String
  | [] => ""
  | [p] => p
  | p :: rest => p ++ sep ++ joinSep sep rest

/-- Model of Python `branch.split('-', 2)`: at most two splits, the third
part keeps any remaining dashes. -/
def pySplitDash2 (s : String) : List String :=
  let ps := pySplit '-' s
  if ps.length ≤ 3 then ps else ps.take 2 ++ [joinSep "-" (ps.drop 2)]

/-- Model of Python `str.upper` (ASCII, the alphabet branch names use). -/
def pyUpper (s : String) : String :=
  String.mk (s.toList.map Char.toUpper)

/-- Model of Python `str.lower` (ASCII). -/
def pyLower (s : String) : String :=
  String.mk (s.toList.map Char.toLower)

/-- `true` when the first list is a prefix of the second. -/
def startsWithChars : List Char → List Char → Bool
  | [], _ => true
  | _ :: _, [] => false
  | p :: ps, c :: cs => p = c && startsWithChars ps cs

/-- Model of Python `s.startswith(pat)`. -/
def pyStartsWith (s pat : String) : Bool :=
  startsWithChars pat.toList s.toList

/-- `true` when `pat` occurs as a contiguous substring. -/
def containsSub (pat : List Char) : List Char → Bool
  | [] => pat.isEmpty
  | c :: rest => startsWithChars pat (c :: rest) || containsSub pat rest

/-- Numeric value of a digit string. -/
def digitsVal (cs : List Char) : Nat :=
  cs.foldl (fun a c => 10 * a + (c.toNat - 48)) 0

/-- Model of Python `int(float(s))` for plain decimal literals with an
optional sign: the integer part, truncated toward zero.  `none` models
`float` raising `ValueError`.  Model restriction: exotic `float` syntax
(exponents, `inf`/`nan`, underscores, surrounding whitespace) and binary
rounding of extreme literals are outside the fragment the pipeline uses. -/
def intFloat (s : String) : Option Int :=
  let cs := s.toList
  let (neg, body) :=
    match cs with
    | '-' :: rest => (true, rest)
    | '+' :: rest => (false, rest)
    | _ => (false, cs)
  let mk : List Char → Int := fun ip =>
    if neg then -(digitsVal ip : Int) else (digitsVal ip : Int)
  match splitChars '.' body with
  | [ip] =>
    if !ip.isEmpty && ip.all Char.isDigit then some (mk ip) else none
  | [ip, fp] =>
    if (!ip.isEmpty || !fp.isEmpty) && ip.all Char.isDigit
        && fp.all Char.isDigit then
      some (mk ip)
    else none
  | _ => none

/-- Scanner state for `%`-formatting. -/
inductive FmtState where
  | text
  | percent
  | inKey (acc : List Char)
  | afterKey (key : List Char)

/-- Character-level model of Python `template % mapping` with a `dict`
right operand, for the `%(key)s` / `%%` fragment the pipeline uses.
An unknown key raises `KeyError`; a dangling `%`, an unterminated key, or
a conversion outside the modelled fragment raises `ValueError`. -/
def pyFormatGo (m : List (String × String)) : List Char → FmtState → Except PyError (List Char)
  | [], .text => .ok []
  | [], _ => .error .valueError
  | c :: rest, .text =>
    if c = '%' then pyFormatGo m rest .percent
    else (pyFormatGo m rest .text).map (fun t => c :: t)
  | c :: rest, .percent =>
    if c = '%' then (pyFormatGo m rest .text).map (fun t => '%' :: t)
    else if c = '(' then pyFormatGo m rest (.inKey [])
    else .error .valueError
  | c :: rest, .inKey acc =>
    if c = ')' then pyFormatGo m rest (.afterKey acc)
    else pyFormatGo m rest (.inKey (acc ++ [c]))
  | c :: rest, .afterKey key =>
    if c = 's' then
      match lookupAssoc m (String.mk key) with
      | none => .error .keyError
      | some v => (pyFormatGo m rest .text).map (fun t => v.toList ++ t)
    else .error .valueError

/-- Model of Python `template % mapping` (string result). -/
def pyFormatMap (tmpl : String) (m : List (String × String)) : Except PyError String :=
  (pyFormatGo m tmpl.toList .text).map String.mk

/-- The interpolation mapping built at `__init__.py:45-47`:
`{'branch': branch, 'major': major, 'distro': distro}` with the values
already stringified the way `%s` would (`str` is identity on `str`,
decimal representation on `int`). -/
def interpMap (branch : String) (major : Int) (distro : String) : List (String × String) :=
  [("branch", branch), ("major", toString major), ("distro", distro)]

/-- `true` iff the template contains the literal placeholder `%(key)s`. -/
def hasPlaceholder (tmpl key : String) : Bool :=
  containsSub ("%(" ++ key ++ ")s").toList tmpl.toList

/-- Embedding of `parse_ci_message(msg, compose_url)` (`__init__.py:18-49`).
`msg` is the parsed CI_MESSAGE JSON value; `compose_url` is the COMPOSE_URL
value (`none` models Python `None`).  Only `KeyError` is caught on the two
lookups; everything else propagates:
a non-mapping payload raises `TypeError` from subscripting, a non-string
`branch` raises from `.split` (modelled `attributeError`), a branch that
does not unpack into three parts raises `ValueError`, an unparseable
version raises `ValueError` from `float`, and `None % {...}` raises
`TypeError`. -/
def parse_ci_message (msg : JValue) (compose_url : Option String) : Except PyError JValue :=
  match getItem msg "compose_url" with
  | .ok v => .ok v
  | .error .keyError =>
    match getItem msg "branch" with
    | .ok bv =>
      match bv with
      | .str branch =>
        match pySplitDash2 branch with
        | [_, version, distro] =>
          match intFloat version with
          | some major =>
            match compose_url with
            | some tmpl =>
              (pyFormatMap tmpl (interpMap branch major (pyUpper distro))).map .str
            | none => .error .typeError
          | none => .error .valueError
        | _ => .error .valueError
      | _ => .error .attributeError
    | .error .keyError => .ok (optJ compose_url)
    | .error e => .error e
  | .error e => .error e

/-- Embedding of `compose_url_from_env()` (`__init__.py:52-78`).
`envComposeURL` is the COMPOSE_URL environment value (`none` = unset);
`ciMessage` is the result of `json.loads` on the CI_MESSAGE environment
value, with `none` modelling a `ValueError` (invalid or absent JSON).
An empty or unset COMPOSE_URL is normalised to `None` before parsing. -/
def compose_url_from_env (envComposeURL : Option String) (ciMessage : Option JValue) :
    Except PyError JValue :=
  let cu := envComposeURL.getD ""
  let compose_url := if cu = "" then none else some cu
  match ciMessage with
  | none => .ok (optJ compose_url)
  | some msg => parse_ci_message msg compose_url

/-- Embedding of `get_branch(compose)` (`__init__.py:119-128`).  The two
fields read from the compose, `compose.info.release.short` and
`compose.info.release.version`, become the parameters.  The special case
assigns the Python integer `2`, which the final `'%s-%s-rhel-7'` format
renders as its decimal string. -/
def get_branch (short version : String) : String :=
  let name := pyLower short
  let name := if name = "rhceph" then "ceph" else name
  let version :=
    if name = "ceph" && pyStartsWith version "2" then toString (2 : Int) else version
  name ++ "-" ++ version ++ "-rhel-7"

/-- Branch resolver transcribed from the spec's words (§4.2), for the
refinement comparison with `get_branch`: lowercase the family, map
`"rhceph"` to `"ceph"`, collapse the version to `2` exactly when the
normalized family is `"ceph"` and the version starts with `"2"`, and emit
`"<family>-<version>-rhel-7"`. -/
def branchResolver_spec (release_family release_version : String) : String :=
  let family := pyLower release_family
  let family := if family = "rhceph" then "ceph" else family
  let version :=
    if family = "ceph" && pyStartsWith release_version "2" then "2" else release_version
  family ++ "-" ++ version ++ "-rhel-7"

/-- Embedding of the result assembly in `build_container`
(`__init__.py:153-163`): the dict starts with the task id, then gets
`repository` when `koji.get_repositories(task_id)` returned exactly one
element, otherwise `repositories` with the whole list. -/
def build_container_result (task_id : Int) (repositories : List String) :
    List (String × JValue) :=
  match repositories with
  | [r] => [("koji_task", .num task_id), ("repository", .str r)]
  | rs => [("koji_task", .num task_id), ("repositories", .arr (rs.map .str))]

/-- Python dict assignment `d[k] = v`: replace in place when the key
exists, append otherwise. -/
def setItem (kvs : List (String × JValue)) (k : String) (v : JValue) :
    List (String × JValue) :=
  match kvs with
  | [] => [(k, v)]
  | (k2, v2) :: rest => if k2 = k then (k2, v) :: rest else (k2, v2) :: setItem rest k v

/-- Lexicographic code-point comparison of character lists (Python string
`<=` on the ASCII keys involved). -/
def charListLe : List Char → List Char → Bool
  | [], _ => true
  | _ :: _, [] => false
  | a :: as, b :: bs => if a = b then charListLe as bs else decide (a < b)

/-- String comparison used by `json.dump(..., sort_keys=True)`. -/
def strLe (a b : String) : Bool :=
  charListLe a.toList b.toList

/-- Insert an entry into a key-sorted association list. -/
def insertByKey (p : String × JValue) : List (String × JValue) → List (String × JValue)
  | [] => [p]
  | q :: rest => if strLe p.1 q.1 then p :: q :: rest else q :: insertByKey p rest

/-- Stable sort of an association list by key. -/
def sortByKey : List (String × JValue) → List (String × JValue)
  | [] => []
  | p :: rest => insertByKey p (sortByKey rest)

/-- `true` when the association list's keys are in ascending order. -/
def keysSorted : List (String × JValue) → Bool
  | [] => true
  | [_] => true
  | p :: q :: rest => strLe p.1 q.1 && keysSorted (q :: rest)

/-- Embedding of `write_metadata_file(filename, **kwargs)`
(`__init__.py:88-93`): `json.dump(kwargs, f, sort_keys=True)` writes the
entries ordered by key; the value returned here is that key-sorted
association list (the temporary-directory path handling is I/O outside the
model). -/
def write_metadata_file (kwargs : List (String × JValue)) : List (String × JValue) :=
  sortByKey kwargs

/-- Embedding of the metadata assembly in `main` (`__init__.py:204-211`):
the `build_container` result dict, then `metadata['compose_url'] = ...`
and `metadata['compose_id'] = ...`. -/
def main_metadata (task_id : Int) (repositories : List String)
    (compose_url compose_id : String) : List (String × JValue) :=
  setItem (setItem (build_container_result task_id repositories)
      "compose_url" (.str compose_url))
    "compose_id" (.str compose_id)

/-- Python `repr` of a scalar value, as it appears inside `str` applied to
a list.  Containers nested inside containers are outside the modelled
fragment (metadata values are ints, strings, or lists of strings). -/
def pyStrScalar : JValue → String
  | .str s => "'" ++ s ++ "'"
  | .num n => toString n
  | .bool b => if b then "True" else "False"
  | .null => "None"
  | .arr _ => "[...]"
  | .obj _ => "\x7b...\x7d"

/-- Python `str(value)` for the value shapes BuildMetadata takes. -/
def pyStr : JValue → String
  | .str s => s
  | .num n => toString n
  | .bool b => if b then "True" else "False"
  | .null => "None"
  | .arr xs => "[" ++ joinSep ", " (xs.map pyStrScalar) ++ "]"
  | .obj _ => "\x7b...\x7d"

/-- The `KEY=value` lines `write_props_file` emits, one per metadata
entry, key uppercased (`__init__.py:102-103`). -/
def propsLines (kwargs : List (String × JValue)) : List String :=
  kwargs.map (fun kv => pyUpper kv.1 ++ "=" ++ pyStr kv.2 ++ "\n")

/-- Embedding of `write_props_file(**kwargs)` (`__init__.py:96-103`).
`workspace` is the optional WORKSPACE environment value; `openResult`
models the outcome of `open(path, 'w')` (`.error` = the `IOError` /
`OSError` raised for a missing directory).  When WORKSPACE is unset
nothing is written (`.ok none`); when the open succeeds the written lines
are returned; there is no `try`/`except`, so an open failure propagates
unchanged. -/
def write_props_file (workspace : Option String) (kwargs : List (String × JValue))
    (openResult : String → Except PyError Unit) : Except PyError (Option (List String)) :=
  match workspace with
  | none => .ok none
  | some w =>
    match openResult (w ++ "/osbs.props") with
    | .error e => .error e
    | .ok _ => .ok (some (propsLines kwargs))

/-- `true` exactly when the computation raised. -/
def isErr {ε α : Type} : Except ε α → Bool
  | .error _ => true
  | .ok _ => false

/-- Failure condition of the branch-derived tier, transcribed from the
amended claim C6: the tier fails exactly when the branch does not split
into three segments, the version segment is not float-parseable, the
template is null, or the template's interpolation itself raises (an
undefined placeholder or malformed format); a template merely lacking the
three placeholders is not a failure. -/
def branchTierFails_spec (branch : String) (tmpl : Option String) : Bool :=
  match pySplitDash2 branch with
  | [_, version, distro] =>
    match intFloat version with
    | none => true
    | some major =>
      match tmpl with
      | none => true
      | some t => isErr (pyFormatMap t (interpMap branch major (pyUpper distro)))
  | _ => true

/-- C1: for every build-result collection step, exactly one repository
identifier from the build system yields the singular key `repository`
mapped to it; zero or two-or-more yield the plural key `repositories`
mapped to the full list in return order (empty list for zero); exactly one
of the two keys is present in the result. -/
theorem build_result_cardinality (task_id : Int) (repos : List String) :
    (∀ r, repos = [r] →
      lookupAssoc (build_container_result task_id repos) "repository"
          = some (.str r)
      ∧ lookupAssoc (build_container_result task_id repos) "repositories" = none)
    ∧ (repos.length ≠ 1 →
      lookupAssoc (build_container_result task_id repos) "repositories"
          = some (.arr (repos.map .str))
      ∧ lookupAssoc (build_container_result task_id repos) "repository" = none)
    ∧ ((lookupAssoc (build_container_result task_id repos) "repository").isSome
        = !(lookupAssoc (build_container_result task_id repos) "repositories").isSome) := by
  rcases repos with _ | ⟨r1, _ | ⟨r2, rs⟩⟩
  · refine ⟨?_, ?_, rfl⟩
    · intro r h
      cases h
    · intro _
      exact ⟨rfl, rfl⟩
  · refine ⟨?_, ?_, rfl⟩
    · intro r h
      injection h with h1 _
      subst h1
      exact ⟨rfl, rfl⟩
    · intro h
      exact absurd rfl h
  · refine ⟨?_, ?_, rfl⟩
    · intro r h
      simp at h
    · intro _
      exact ⟨rfl, rfl⟩

/-- Witness for C1 at concrete inputs: one repository collapses to the
singular key, two keep the plural key. -/
theorem build_result_cardinality_witness :
    lookupAssoc (build_container_result 7 ["regA"]) "repository"
        = some (JValue.str "regA")
    ∧ lookupAssoc (build_container_result 7 ["regA", "regB"]) "repositories"
        = some (JValue.arr [JValue.str "regA", JValue.str "regB"]) :=
  ⟨((build_result_cardinality 7 ["regA"]).1 "regA" rfl).1,
   ((build_result_cardinality 7 ["regA", "regB"]).2.1 (by decide)).1⟩

/-- C2: any payload object containing the key `compose_url` resolves to
that value verbatim, whatever the `branch` key or the fallback template
holds. -/
theorem compose_url_returned_verbatim (kvs : List (String × JValue)) (v : JValue)
    (cu : Option String) (h : lookupAssoc kvs "compose_url" = some v) :
    parse_ci_message (.obj kvs) cu = .ok v := by
  simp [parse_ci_message, getItem, h]

/-- Witness for C2: a payload with both keys and a bogus template still
returns the `compose_url` value. -/
theorem compose_url_returned_verbatim_witness :
    lookupAssoc [("compose_url", JValue.str "http://c"), ("branch", JValue.str "weird")]
        "compose_url" = some (JValue.str "http://c")
    ∧ parse_ci_message
        (.obj [("compose_url", JValue.str "http://c"), ("branch", JValue.str "weird")])
        (some "%(bogus)s") = .ok (JValue.str "http://c") :=
  ⟨rfl, compose_url_returned_verbatim _ _ _ rfl⟩

/-- C3: a payload with `branch` but no `compose_url`, whose branch splits
(on `-`, limited to 2 splits) into three segments with a float-parseable
version, resolves through the fallback template interpolated with the
branch unchanged, the truncated version as `major`, and the uppercased
distro. -/
theorem branch_tier_interpolates (kvs : List (String × JValue))
    (tmpl branch name version distro : String) (major : Int)
    (h1 : lookupAssoc kvs "compose_url" = none)
    (h2 : lookupAssoc kvs "branch" = some (.str branch))
    (h3 : pySplitDash2 branch = [name, version, distro])
    (h4 : intFloat version = some major)
    (_h5 : hasPlaceholder tmpl "branch" = true)
    (_h6 : hasPlaceholder tmpl "major" = true)
    (_h7 : hasPlaceholder tmpl "distro" = true) :
    parse_ci_message (.obj kvs) (some tmpl)
      = (pyFormatMap tmpl (interpMap branch major (pyUpper distro))).map JValue.str := by
  simp [parse_ci_message, getItem, h1, h2, h3, h4]

/-- Witness for C3, the spec's concrete example: `{"branch":
"ceph-3.0-rhel-7"}` with template `http://x/%(branch)s/%(major)s/%(distro)s`
yields `http://x/ceph-3.0-rhel-7/3/RHEL-7`. -/
theorem branch_tier_interpolates_witness :
    intFloat "3.0" = some 3
    ∧ parse_ci_message (.obj [("branch", JValue.str "ceph-3.0-rhel-7")])
        (some "http://x/%(branch)s/%(major)s/%(distro)s")
      = .ok (JValue.str "http://x/ceph-3.0-rhel-7/3/RHEL-7") :=
  ⟨rfl,
   (branch_tier_interpolates [("branch", JValue.str "ceph-3.0-rhel-7")]
      "http://x/%(branch)s/%(major)s/%(distro)s" "ceph-3.0-rhel-7" "ceph" "3.0" "rhel-7" 3
      rfl rfl rfl rfl rfl rfl rfl).trans rfl⟩

/-- C4: branch resolution lowercases the family, maps `rhceph` to `ceph`,
collapses the version to `2` exactly when the normalized family is `ceph`
and the version starts with `2`, and returns `<family>-<version>-rhel-7`;
in particular `("rhceph", "2.5")` gives `ceph-2-rhel-7` and
`("rhceph", "4.0")` gives `ceph-4.0-rhel-7`. -/
theorem get_branch_matches_spec :
    (∀ f v, get_branch f v = branchResolver_spec f v)
    ∧ get_branch "rhceph" "2.5" = "ceph-2-rhel-7"
    ∧ get_branch "rhceph" "4.0" = "ceph-4.0-rhel-7" :=
  ⟨fun _ _ => rfl, rfl, rfl⟩

/-- Counterexample to C5: a message whose `compose_url` value is the empty
string resolves to the empty string even with a non-empty fallback — the
empty string is returned, not null. -/
theorem empty_string_returned_counterexample :
    compose_url_from_env (some "http://fallback")
        (some (.obj [("compose_url", JValue.str "")])) = .ok (JValue.str "") := rfl

/-- C5 as amended: the empty-string-to-null normalization applies only to
the COMPOSE_URL environment value before resolution — an empty COMPOSE_URL
behaves exactly like an unset one, and with both inputs absent the result
is null — while a message carrying an empty `compose_url` resolves to the
empty string whatever the fallback is. -/
theorem env_normalization_only :
    (∀ ci, compose_url_from_env (some "") ci = compose_url_from_env none ci)
    ∧ compose_url_from_env none none = .ok JValue.null
    ∧ (∀ f, compose_url_from_env (some f)
        (some (.obj [("compose_url", JValue.str "")])) = .ok (JValue.str "")) :=
  ⟨fun _ => rfl, rfl, fun _ => rfl⟩

/-- C6 as amended: with `branch` present and `compose_url` absent, the
branch tier raises exactly when the branch does not split into three
segments, the version segment is not float-parseable, the template is
null, or the template interpolation itself raises; a template merely
lacking the three placeholders is not a failure case. -/
theorem branch_tier_failure_iff (kvs : List (String × JValue)) (tmpl : Option String)
    (branch : String)
    (h1 : lookupAssoc kvs "compose_url" = none)
    (h2 : lookupAssoc kvs "branch" = some (.str branch)) :
    isErr (parse_ci_message (.obj kvs) tmpl) = branchTierFails_spec branch tmpl := by
  simp only [parse_ci_message, getItem, h1, h2, branchTierFails_spec]
  rcases _hs : pySplitDash2 branch with _ | ⟨a, _ | ⟨b, _ | ⟨c, _ | ⟨d, t⟩⟩⟩⟩
  · rfl
  · rfl
  · rfl
  · cases _hf : intFloat b with
    | none => simp [_hf, isErr]
    | some major =>
      cases tmpl with
      | none => simp [_hf, isErr]
      | some tm =>
        cases _hp : pyFormatMap tm (interpMap branch major (pyUpper c)) with
        | ok s => simp [_hf, _hp, Except.map, isErr]
        | error e => simp [_hf, _hp, Except.map, isErr]
  · rfl

/-- Witness for C6 (amended) at a concrete input: a branch without dashes
makes the tier raise. -/
theorem branch_tier_failure_iff_witness :
    lookupAssoc [("branch", JValue.str "nodash")] "compose_url" = none
    ∧ isErr (parse_ci_message (.obj [("branch", JValue.str "nodash")]) none) = true :=
  ⟨rfl,
   (branch_tier_failure_iff [("branch", JValue.str "nodash")] none "nodash" rfl rfl).trans
     rfl⟩

/-- Counterexample to C6: with `branch` present and a non-null template
lacking all three placeholders, resolution succeeds and returns the
template — it does not fail. -/
theorem template_without_placeholders_counterexample :
    hasPlaceholder "http://x" "branch" = false
    ∧ hasPlaceholder "http://x" "major" = false
    ∧ hasPlaceholder "http://x" "distro" = false
    ∧ parse_ci_message (.obj [("branch", JValue.str "ceph-3.0-rhel-7")]) (some "http://x")
        = .ok (JValue.str "http://x") :=
  ⟨rfl, rfl, rfl, rfl⟩

/-- C7: after a completed build stage the assembled metadata maps
`compose_url`, `compose_id` and the task identifier to their values,
carries exactly one of `repository`/`repositories`, and the serialized
JSON file has its keys sorted. -/
theorem metadata_invariant (task_id : Int) (repos : List String) (url cid : String) :
    lookupAssoc (main_metadata task_id repos url cid) "compose_url"
        = some (JValue.str url)
    ∧ lookupAssoc (main_metadata task_id repos url cid) "compose_id"
        = some (JValue.str cid)
    ∧ lookupAssoc (main_metadata task_id repos url cid) "koji_task"
        = some (JValue.num task_id)
    ∧ ((lookupAssoc (main_metadata task_id repos url cid) "repository").isSome
        = !(lookupAssoc (main_metadata task_id repos url cid) "repositories").isSome)
    ∧ keysSorted (write_metadata_file (main_metadata task_id repos url cid)) = true := by
  rcases repos with _ | ⟨r1, _ | ⟨r2, rs⟩⟩ <;> exact ⟨rfl, rfl, rfl, rfl, rfl⟩

/-- Counterexample to C8: with WORKSPACE set and the `open` failing (a
missing workspace directory), `write_props_file` propagates the error —
the failure is not caught, logged, or skipped. -/
theorem props_failure_propagates_counterexample :
    write_props_file (some "/missing") [("koji_task", JValue.num 1)]
        (fun _ => .error .osError) = .error PyError.osError := rfl

/-- C8 as amended: the props file is written iff WORKSPACE is present in
the environment (nothing is attempted without it; a successful open writes
one uppercased `KEY=value` line per entry), and a failure of the emission
propagates unchanged — it is not caught, so it aborts the run. -/
theorem props_file_behavior (kwargs : List (String × JValue))
    (openResult : String → Except PyError Unit) :
    (write_props_file none kwargs openResult = .ok none)
    ∧ (∀ w u, openResult (w ++ "/osbs.props") = .ok u →
        write_props_file (some w) kwargs openResult = .ok (some (propsLines kwargs)))
    ∧ (∀ w e, openResult (w ++ "/osbs.props") = .error e →
        write_props_file (some w) kwargs openResult = .error e) := by
  refine ⟨rfl, ?_, ?_⟩
  · intro w u h
    simp [write_props_file, h]
  · intro w e h
    simp [write_props_file, h]

/-- Witness for C8 (amended): a successful emission writes the uppercased
`KEY=value` lines. -/
theorem props_file_behavior_witness :
    write_props_file (some "/ws")
        [("koji_task", JValue.num 1), ("repository", JValue.str "reg/x")]
        (fun _ => .ok ()) = .ok (some ["KOJI_TASK=1\n", "REPOSITORY=reg/x\n"]) :=
  ((props_file_behavior _ _).2.1 "/ws" () rfl).trans rfl

/-- C9: a payload that is valid JSON but not an object (array, string, or
number) raises an uncaught TypeError from subscripting a non-mapping
instead of falling back, while an unparseable CI_MESSAGE does fall back to
the COMPOSE_URL template. -/
theorem nonmapping_payload_raises :
    compose_url_from_env (some "http://fallback") (some (JValue.arr [JValue.str "a"]))
        = .error PyError.typeError
    ∧ compose_url_from_env (some "http://fallback") (some (JValue.str "hi"))
        = .error PyError.typeError
    ∧ compose_url_from_env (some "http://fallback") (some (JValue.num 3))
        = .error PyError.typeError
    ∧ compose_url_from_env (some "http://fallback") none
        = .ok (JValue.str "http://fallback") :=
  ⟨rfl, rfl, rfl, rfl⟩

/-- C10: a branch that splits into three segments whose middle (version)
segment is not float-parseable — `private-foo-rhel-7` — raises an uncaught
ValueError from the float conversion even though the template is non-null
and contains all three placeholders. -/
theorem version_not_float_raises :
    pySplitDash2 "private-foo-rhel-7" = ["private", "foo", "rhel-7"]
    ∧ intFloat "foo" = none
    ∧ hasPlaceholder "http://x/%(branch)s/%(major)s/%(distro)s" "branch" = true
    ∧ hasPlaceholder "http://x/%(branch)s/%(major)s/%(distro)s" "major" = true
    ∧ hasPlaceholder "http://x/%(branch)s/%(major)s/%(distro)s" "distro" = true
    ∧ parse_ci_message (.obj [("branch", JValue.str "private-foo-rhel-7")])
        (some "http://x/%(branch)s/%(major)s/%(distro)s") = .error PyError.valueError :=
  ⟨rfl, rfl, rfl, rfl, rfl, rfl⟩
